import Mathlib

/-!
Shallow embedding of the invocation-and-result pipeline of the
epubcheck-mcp repository: the process runner (`src/epubcheck/runner.ts`)
and the background version checker (`version-checker.ts`), together with
theorems settling the specification claims about them.

External effects (file-system existence checks, reading the artifact,
subprocess events, HTTP responses, the wall clock) are passed in as
explicit parameters, so every embedded function is a pure, executable
Lean function mirroring the TypeScript control flow.
-/

/-! ## Data model (`src/epubcheck/types.ts`)

`ValidateMode`, `ValidateProfile` and the version literal union are the
string-literal unions of the source; each carries its runtime string via
`toStr`.  `ValidateOptions` mirrors the source interface: the three
optional fields are `Option`s (a missing field is `none`, matching a JS
`undefined`, which is falsy).
-/

inductive ValidateMode
  | epub | opf | xhtml | svg | nav | mo
deriving DecidableEq, Repr

def ValidateMode.toStr : ValidateMode → String
  | .epub => "epub"
  | .opf => "opf"
  | .xhtml => "xhtml"
  | .svg => "svg"
  | .nav => "nav"
  | .mo => "mo"

inductive ValidateProfile
  | dflt | dict | edupub | idx | preview
deriving DecidableEq, Repr

def ValidateProfile.toStr : ValidateProfile → String
  | .dflt => "default"
  | .dict => "dict"
  | .edupub => "edupub"
  | .idx => "idx"
  | .preview => "preview"

inductive EpubVersion
  | v20 | v30
deriving DecidableEq, Repr

def EpubVersion.toStr : EpubVersion → String
  | .v20 => "2.0"
  | .v30 => "3.0"

structure ValidateOptions where
  path : String
  mode : Option ValidateMode
  profile : Option ValidateProfile
  version : Option EpubVersion
deriving Repr

/-! ## Argument construction (`buildArgs`, runner.ts lines 122-147) -/

/-- Embedding of `buildArgs(options, jsonOutputPath)`: pushes the
`--json` flag with the artifact path, then the conditional `--mode`,
`--profile` and `-v` flags, then the input path last.  The source guards
`options.mode && ...` are JS truthiness tests; every inhabitant of the
literal-union types is a non-empty string, so truthiness coincides with
the field being present (`some`). -/
def buildArgs (options : ValidateOptions) (jsonOutputPath : String) : List String :=
  let args : List String := []
  -- Output format
  let args := args ++ ["--json", jsonOutputPath]
  -- Mode
  let args := args ++
    (match options.mode with
     | some m => if m.toStr ≠ "epub" then ["--mode", m.toStr] else []
     | none => [])
  -- Profile
  let args := args ++
    (match options.profile with
     | some p => if p.toStr ≠ "default" then ["--profile", p.toStr] else []
     | none => [])
  -- Version (only for single file mode)
  let args := args ++
    (match options.version, options.mode with
     | some v, some m => if m.toStr ≠ "epub" then ["-v", v.toStr] else []
     | _, _ => [])
  -- Input path (must be last)
  args ++ [options.path]

/-! ## Executable resolution (`getJarPath`, runner.ts lines 17-42) -/

/-- Abstraction of Node `path.join` on a fixed list of segments (path
normalisation is irrelevant to the claims; paths stay opaque). -/
def pathJoin (parts : List String) : String :=
  String.intercalate "/" parts

/-- The `possiblePaths` array of `getJarPath`, parameterised by the
module directory `__dirname` and the working directory `process.cwd()`. -/
def possiblePaths (dirname cwd : String) : List String :=
  [pathJoin [dirname, "..", "bin", "epubcheck.jar"],
   pathJoin [dirname, "bin", "epubcheck.jar"],
   pathJoin [cwd, "bin", "epubcheck.jar"]]

/-- Embedding of `getJarPath()`.  `envJarPath` is
`process.env.EPUBCHECK_JAR_PATH` (`none` when unset; the source guard is
a truthiness test, so the empty string also falls through).  `fsExists`
stands for `existsSync`.  A thrown `Error` becomes `Except.error` of its
message. -/
def getJarPath (envJarPath : Option String) (dirname cwd : String)
    (fsExists : String → Bool) : Except String String :=
  -- Environment variable override
  match envJarPath with
  | some e =>
    if e = "" then getJarPathSearch dirname cwd fsExists else Except.ok e
  | none => getJarPathSearch dirname cwd fsExists
where
  /-- The fallback loop over `possiblePaths`: return the first existing
  path, else throw listing every searched location. -/
  getJarPathSearch (dirname cwd : String) (fsExists : String → Bool) :
      Except String String :=
    match (possiblePaths dirname cwd).find? fsExists with
    | some p => Except.ok p
    | none =>
      Except.error
        ("EPUBCheck JAR not found. Searched in: "
          ++ String.intercalate ", " (possiblePaths dirname cwd)
          ++ ". Set EPUBCHECK_JAR_PATH environment variable or ensure bin/epubcheck.jar exists.")

/-! ## Process invocation (`runEpubCheck`, runner.ts lines 44-85) -/

/-- Rendering of the exit code in the template literal
`exit code ${code}`; Node reports `code` as `number | null`. -/
def exitCodeText : Option Int → String
  | some n => toString n
  | none => "null"

/-- The terminal event of the spawned process observed by
`runEpubCheck`'s promise callbacks: either the `close` event (with the
observed state of the output artifact, its content, the collected stderr
and the exit code) or the `error` event (spawn failure). -/
inductive RunEvent
  | closed (artifactExists : Bool) (artifactContent : String)
      (stderr : String) (code : Option Int)
  | errored (msg : String)

/-- Embedding of the `close` handler of `runEpubCheck` (lines 63-79):
if the artifact exists it is read, deleted (best-effort, not modelled)
and parsed — a parse failure is caught and rejects with the parse error;
if it does not exist the promise rejects with `NoOutputProduced`
carrying stderr or, when stderr is empty (falsy), `exit code N`.
`parse` stands for `JSON.parse` followed by the unchecked
`as EpubCheckResult` cast, so the document type `α` is abstract. -/
def runEpubCheckClose {α : Type} (parse : String → Except String α)
    (artifactExists : Bool) (artifactContent : String)
    (stderr : String) (code : Option Int) : Except String α :=
  if artifactExists then
    match parse artifactContent with
    | Except.ok doc => Except.ok doc
    | Except.error e => Except.error e
  else
    Except.error
      ("EPUBCheck failed to produce output: "
        ++ (if stderr = "" then "exit code " ++ exitCodeText code else stderr))

/-- Embedding of `runEpubCheck(options)` as a function of the resolved
jar path and the process event it observes: a `getJarPath` throw
propagates; a spawn `error` event rejects with the wrapped message;
a `close` event is handled by `runEpubCheckClose`. -/
def runEpubCheck {α : Type} (parse : String → Except String α)
    (jar : Except String String) (ev : RunEvent) : Except String α :=
  match jar with
  | Except.error e => Except.error e
  | Except.ok _ =>
    match ev with
    | RunEvent.closed ex content stderr code =>
      runEpubCheckClose parse ex content stderr code
    | RunEvent.errored m =>
      Except.error ("Failed to run EPUBCheck: " ++ m)

/-! ## Version query (`getEpubCheckVersion`, runner.ts lines 87-120) -/

/-- Characters matched by the `[\d.]` class of the version regex. -/
def isVersionChar (c : Char) : Bool :=
  c.isDigit || c = '.'

/-- Leftmost match of the regex `EPUBCheck v([\d.]+)` over a character
list, returning the first capture group: at each position, if the
literal `EPUBCheck v` matches and is followed by at least one `[\d.]`
character, the greedy capture is the maximal such run; otherwise the
scan moves one position right. -/
def findVersionCapture : List Char → Option String
  | [] => none
  | c :: rest =>
    if List.isPrefixOf "EPUBCheck v".data (c :: rest) then
      let run := ((c :: rest).drop "EPUBCheck v".data.length).takeWhile isVersionChar
      if run.isEmpty then findVersionCapture rest else some (String.mk run)
    else findVersionCapture rest

/-- The `stdout.match(/EPUBCheck v([\d.]+)/)` step: `some` the first
capture when the pattern matches, `none` otherwise. -/
def matchVersion (stdout : String) : Option String :=
  findVersionCapture stdout.data

/-- The terminal event observed by `getEpubCheckVersion`'s promise:
the `close` event with the collected stdout, or the spawn `error`
event. -/
inductive VersionEvent
  | closed (stdout : String)
  | errored (msg : String)

/-- The observable outcome of one `getEpubCheckVersion` call: the
settled promise (`result`), the module-level `cachedVersion` after the
call, whether a subprocess spawn was attempted, and whether
`checkForUpdatesAsync` was triggered. -/
structure VersionQueryOutcome where
  result : Except String String
  newCachedVersion : Option String
  spawned : Bool
  updateCheckTriggered : Bool
deriving Repr

/-- The body of `getEpubCheckVersion` past the memoisation guard:
resolve the jar path (a throw rejects), spawn, and on `close` match the
version pattern against stdout — on a match, memoise the capture,
trigger the background update check and resolve with it; on a miss,
resolve with the trimmed stdout or `unknown` when that is empty,
leaving the memo untouched.  A spawn `error` event rejects with the
wrapped message. -/
def getEpubCheckVersionRun (cachedVersion : Option String)
    (jar : Except String String) (ev : VersionEvent) : VersionQueryOutcome :=
  match jar with
  | Except.error e =>
    { result := Except.error e, newCachedVersion := cachedVersion,
      spawned := false, updateCheckTriggered := false }
  | Except.ok _ =>
    match ev with
    | VersionEvent.errored m =>
      { result := Except.error ("Failed to get EPUBCheck version: " ++ m),
        newCachedVersion := cachedVersion, spawned := true,
        updateCheckTriggered := false }
    | VersionEvent.closed stdout =>
      match matchVersion stdout with
      | some ver =>
        { result := Except.ok ver, newCachedVersion := some ver,
          spawned := true, updateCheckTriggered := true }
      | none =>
        { result := Except.ok (if stdout.trim = "" then "unknown" else stdout.trim),
          newCachedVersion := cachedVersion, spawned := true,
          updateCheckTriggered := false }

/-- Embedding of `getEpubCheckVersion()` as a function of the in-memory
`cachedVersion`, the resolved jar path and the observed process event.
The memoisation guard `if (cachedVersion) return cachedVersion` is a JS
truthiness test, so a cached empty string would fall through. -/
def getEpubCheckVersion (cachedVersion : Option String)
    (jar : Except String String) (ev : VersionEvent) : VersionQueryOutcome :=
  match cachedVersion with
  | some v =>
    if v = "" then getEpubCheckVersionRun cachedVersion jar ev
    else
      { result := Except.ok v, newCachedVersion := some v,
        spawned := false, updateCheckTriggered := false }
  | none => getEpubCheckVersionRun cachedVersion jar ev

/-! ## Background version checker (`version-checker.ts`) -/

/-- The persisted `VersionCache` record. -/
structure VersionCache where
  lastCheck : Int
  latestVersion : Option String
  currentVersion : String
deriving Repr, DecidableEq

/-- `CHECK_INTERVAL = 24 * 60 * 60 * 1000` milliseconds. -/
def CHECK_INTERVAL : Int := 24 * 60 * 60 * 1000

/-- The module-level mutable state of `version-checker.ts` plus the
disk cache file it reads and writes.  `diskFile` is `none` when the
file is absent, `some (Except.error e)` when reading or parsing it
throws, and `some (Except.ok c)` when it parses to the record `c`.
`inFlight` is `versionCheckPromise !== null`. -/
structure VersionCheckerState where
  cachedLatestVersion : Option String
  inFlight : Bool
  diskFile : Option (Except String VersionCache)
deriving Repr

/-- Embedding of `loadCache()` (lines 28-38): an absent file yields
`null`, and any read/parse throw is caught and likewise yields
`null`. -/
def loadCache : Option (Except String VersionCache) → Option VersionCache
  | none => none
  | some (Except.ok c) => some c
  | some (Except.error _) => none

/-- What one invocation of `fetch` against the releases endpoint came
to: the request or body-parse threw, the response was non-2xx
(`!response.ok`), or a parsed body whose `tag_name` field is `none`
when absent. -/
inductive FetchOutcome
  | networkError
  | httpError
  | body (tagName : Option String)

/-- The `tag_name?.replace(/^v/, "")` step: strip one leading `v`. -/
def stripLeadingV (s : String) : String :=
  if s.startsWith "v" then s.drop 1 else s

/-- Embedding of `fetchLatestVersion()` (lines 57-79): `null` on a
thrown fetch/parse, on a non-OK response, on a missing `tag_name`, and
on a stripped tag that is empty (the `|| null` on a falsy string);
otherwise the tag with its leading `v` removed. -/
def fetchLatestVersion : FetchOutcome → Option String
  | FetchOutcome.networkError => none
  | FetchOutcome.httpError => none
  | FetchOutcome.body none => none
  | FetchOutcome.body (some t) =>
    let stripped := stripLeadingV t
    if stripped = "" then none else some stripped

/-- Embedding of the synchronous part of
`checkForUpdatesAsync(currentVersion)` (lines 85-105): the single-flight
guard, the cache load, the immediate adoption of the cached latest
version, and the TTL test.  Returns the updated state and whether a
background fetch was started (the assignment of `versionCheckPromise`
and the call of `fetchLatestVersion`). -/
def checkForUpdatesAsync (currentVersion : String) (now : Int)
    (s : VersionCheckerState) : VersionCheckerState × Bool :=
  -- Only run one check at a time
  if s.inFlight then (s, false)
  else
    match loadCache s.diskFile with
    | some cache =>
      -- Use cached latest version immediately
      let s1 := { s with cachedLatestVersion := cache.latestVersion }
      -- Check if cache is still valid
      if now - cache.lastCheck < CHECK_INTERVAL then (s1, false)
      else ({ s1 with inFlight := true }, true)
    | none => ({ s with inFlight := true }, true)

/-- Embedding of the background task body of `checkForUpdatesAsync`
(lines 105-123) at its conclusion: when the fetch produced a truthy
version, adopt it in memory and save the record (`saveCache` is
best-effort — `writeOk` is whether the swallowed write succeeded);
otherwise leave everything alone; in all cases the `finally` clears the
in-flight marker. -/
def versionCheckConclude (currentVersion : String) (now : Int)
    (fetched : Option String) (writeOk : Bool)
    (s : VersionCheckerState) : VersionCheckerState :=
  let s1 :=
    match fetched with
    | some latestVersion =>
      if latestVersion = "" then s
      else
        let s2 := { s with cachedLatestVersion := some latestVersion }
        if writeOk then
          { s2 with diskFile := some (Except.ok
              { lastCheck := now, latestVersion := some latestVersion,
                currentVersion := currentVersion }) }
        else s2
    | none => s
  { s1 with inFlight := false }

/-! ## Version comparison (`isUpdateAvailable`, lines 129-150) -/

/-- JS `String.prototype.split` with the one-character separator `.`:
cut at every dot, keeping empty pieces, so `"" → [""]` and
`"a." → ["a", ""]`. -/
def splitOnDotAux : List Char → List Char → List String
  | [], acc => [String.mk acc.reverse]
  | c :: rest, acc =>
    if c = '.' then String.mk acc.reverse :: splitOnDotAux rest []
    else splitOnDotAux rest (c :: acc)

/-- `currentVersion.split(".")` on the underlying characters. -/
def splitOnDot (s : String) : List String :=
  splitOnDotAux s.data []

/-- Integer reading of a component's characters: an optional leading
minus sign followed by at least one decimal digit, nothing else. -/
def readIntChars : List Char → Option Int
  | [] => none
  | '-' :: rest =>
    match readIntChars rest with
    | some n => if n < 0 then none else some (-n)
    | none => none
  | cs =>
    if cs.all Char.isDigit then
      some (Int.ofNat (cs.foldl (fun n c => n * 10 + (c.toNat - 48)) 0))
    else none

/-- The `Number(component) || 0` of a split component: JS `Number`
coerces an integer-numeric string to its value and everything
unparseable to `NaN`, which the `|| 0` turns into `0` (as it does a
missing trailing component). -/
def parseComponent (s : String) : Int :=
  (readIntChars s.data).getD 0

/-- Tail of the comparison loop once the current-version components are
exhausted: each remaining latest component is compared against `0`. -/
def compareWithZeros : List Int → Bool
  | [] => false
  | l :: ls =>
    if l > 0 then true else if l < (0 : Int) then false else compareWithZeros ls

/-- The comparison loop of `isUpdateAvailable`: walk both component
lists in step, a missing trailing component counting as `0`; return
`true` at the first index where latest exceeds current, `false` at the
first where latest falls short, `false` when the lists are exhausted. -/
def compareComponents : List Int → List Int → Bool
  | [], ls => compareWithZeros ls
  | c :: cs, [] =>
    if (0 : Int) > c then true
    else if (0 : Int) < c then false
    else compareComponents cs []
  | c :: cs, l :: ls =>
    if l > c then true else if l < c then false else compareComponents cs ls

/-- Embedding of `isUpdateAvailable(currentVersion, latestVersion)`:
`false` on a falsy (`null` or empty) latest; otherwise split both on
`.`, coerce each component numerically and run the loop. -/
def isUpdateAvailable (currentVersion : String)
    (latestVersion : Option String) : Bool :=
  match latestVersion with
  | none => false
  | some lv =>
    if lv = "" then false
    else
      compareComponents
        ((splitOnDot currentVersion).map parseComponent)
        ((splitOnDot lv).map parseComponent)

/-! ## Helper lemmas -/

/-- The comparison loop reports no update when both component lists are
identical. -/
theorem compareComponents_self (xs : List Int) : compareComponents xs xs = false := by
  induction xs with
  | nil => rfl
  | cons c cs ih => simp [compareComponents, ih]

/-! ## Claims -/

/-- C1: for every invocation of `runEpubCheck`, the result is
determined solely by whether the output artifact exists after the
process terminates, not by the exit code — when the artifact exists and
parses to a document, the promise resolves with it at any exit code
(and the close result is exit-code independent outright); when the
artifact does not exist, the promise rejects with the
`NoOutputProduced` message carrying the collected stderr or, when
stderr is empty, `exit code N`. -/
theorem runEpubCheck_success_iff_artifact {α : Type}
    (parse : String → Except String α)
    (jar : Except String String) (jp : String) (hjar : jar = Except.ok jp)
    (content stderr : String) (code : Option Int) :
    (∀ doc, parse content = Except.ok doc →
        runEpubCheck parse jar (RunEvent.closed true content stderr code)
          = Except.ok doc) ∧
    (∀ code₁ code₂ : Option Int,
        runEpubCheck parse jar (RunEvent.closed true content stderr code₁)
          = runEpubCheck parse jar (RunEvent.closed true content stderr code₂)) ∧
    (runEpubCheck parse jar (RunEvent.closed false content stderr code)
        = Except.error ("EPUBCheck failed to produce output: "
            ++ (if stderr = "" then "exit code " ++ exitCodeText code else stderr))) := by
  subst hjar
  refine ⟨?_, ?_, ?_⟩
  · intro doc h
    simp [runEpubCheck, runEpubCheckClose, h]
  · intro c₁ c₂
    simp [runEpubCheck, runEpubCheckClose]
  · simp [runEpubCheck, runEpubCheckClose]

/-- Witness for C1 at a concrete parser, artifact and non-zero exit
code. -/
theorem runEpubCheck_success_iff_artifact_witness :
    runEpubCheck (fun s => if s = "doc" then Except.ok 0 else Except.error "bad")
        (Except.ok "/opt/epubcheck.jar")
        (RunEvent.closed true "doc" "warnings were reported" (some 1))
      = Except.ok 0 :=
  (runEpubCheck_success_iff_artifact
      (fun s => if s = "doc" then Except.ok 0 else Except.error "bad")
      (Except.ok "/opt/epubcheck.jar") "/opt/epubcheck.jar" rfl
      "doc" "warnings were reported" (some 1)).1 0 (by simp)

/-- C2: for every request and output-artifact path, `buildArgs` begins
with the `--json` flag immediately followed by the artifact path, and
its final element is the request's target path. -/
theorem buildArgs_json_first_target_last (o : ValidateOptions) (p : String) :
    (buildArgs o p).take 2 = ["--json", p] ∧
    (buildArgs o p).getLast? = some o.path := by
  constructor
  · simp [buildArgs]
  · simp only [buildArgs]
    exact List.getLast?_concat _

set_option maxHeartbeats 3200000 in
/-- C3: `buildArgs` emits the `--mode` flag (with its value, at the
fixed position right after the output flag, exactly once) if and only
if the mode is present and differs from the default `epub`; the
`--profile` flag if and only if the profile is present and differs from
`default`; and the `-v` flag if and only if a version was specified and
the mode is present and differs from `epub`.  The path arguments are
assumed distinct from the flag tokens, so that counting occurrences
counts emitted flags. -/
theorem buildArgs_conditional_flags (o : ValidateOptions) (p : String)
    (hp : ¬ p ∈ (["--mode", "--profile", "-v"] : List String))
    (hpath : ¬ o.path ∈ (["--mode", "--profile", "-v"] : List String)) :
    ((buildArgs o p).count "--mode"
        = match o.mode with
          | some m => if m = ValidateMode.epub then 0 else 1
          | none => 0) ∧
    (∀ m : ValidateMode, o.mode = some m → m ≠ ValidateMode.epub →
        (buildArgs o p)[2]? = some "--mode"
          ∧ (buildArgs o p)[3]? = some (ValidateMode.toStr m)) ∧
    ((buildArgs o p).count "--profile"
        = match o.profile with
          | some pr => if pr = ValidateProfile.dflt then 0 else 1
          | none => 0) ∧
    ((buildArgs o p).count "-v"
        = match o.version, o.mode with
          | some _, some m => if m = ValidateMode.epub then 0 else 1
          | _, _ => 0) := by
  simp only [List.mem_cons, List.mem_singleton, not_or] at hp hpath
  obtain ⟨hp1, hp2, hp3, -⟩ := hp
  obtain ⟨hq1, hq2, hq3, -⟩ := hpath
  obtain ⟨path, mode, profile, version⟩ := o
  refine ⟨?_, ?_, ?_, ?_⟩
  · rcases mode with _ | m <;> rcases profile with _ | pr <;> rcases version with _ | v <;>
      (try cases m) <;> (try cases pr) <;> (try cases v) <;>
      simp [buildArgs, List.count_cons, hp1, hq1, ValidateMode.toStr,
        ValidateProfile.toStr, EpubVersion.toStr]
  · intro m hm hne
    subst hm
    rcases profile with _ | pr <;> rcases version with _ | v <;>
      cases m <;> (try cases pr) <;> (try cases v) <;>
      simp_all [buildArgs, ValidateMode.toStr, ValidateProfile.toStr, EpubVersion.toStr]
  · rcases mode with _ | m <;> rcases profile with _ | pr <;> rcases version with _ | v <;>
      (try cases m) <;> (try cases pr) <;> (try cases v) <;>
      simp [buildArgs, List.count_cons, hp2, hq2, ValidateMode.toStr,
        ValidateProfile.toStr, EpubVersion.toStr]
  · rcases mode with _ | m <;> rcases profile with _ | pr <;> rcases version with _ | v <;>
      (try cases m) <;> (try cases pr) <;> (try cases v) <;>
      simp [buildArgs, List.count_cons, hp3, hq3, ValidateMode.toStr,
        ValidateProfile.toStr, EpubVersion.toStr]

/-- Witness for C3 at a request in `opf` mode with the `dict` profile
and version `3.0`. -/
theorem buildArgs_conditional_flags_witness :
    ((buildArgs
        { path := "/books/test.opf", mode := some ValidateMode.opf,
          profile := some ValidateProfile.dict, version := some EpubVersion.v30 }
        "/tmp/epubcheck-1234.json").count "--mode" = 1) ∧
    ((buildArgs
        { path := "/books/test.opf", mode := some ValidateMode.opf,
          profile := some ValidateProfile.dict, version := some EpubVersion.v30 }
        "/tmp/epubcheck-1234.json")[2]? = some "--mode") ∧
    ((buildArgs
        { path := "/books/test.opf", mode := some ValidateMode.opf,
          profile := some ValidateProfile.dict, version := some EpubVersion.v30 }
        "/tmp/epubcheck-1234.json")[3]? = some "opf") ∧
    ((buildArgs
        { path := "/books/test.opf", mode := some ValidateMode.opf,
          profile := some ValidateProfile.dict, version := some EpubVersion.v30 }
        "/tmp/epubcheck-1234.json").count "--profile" = 1) ∧
    ((buildArgs
        { path := "/books/test.opf", mode := some ValidateMode.opf,
          profile := some ValidateProfile.dict, version := some EpubVersion.v30 }
        "/tmp/epubcheck-1234.json").count "-v" = 1) := by
  have h := buildArgs_conditional_flags
    { path := "/books/test.opf", mode := some ValidateMode.opf,
      profile := some ValidateProfile.dict, version := some EpubVersion.v30 }
    "/tmp/epubcheck-1234.json" (by decide) (by decide)
  obtain ⟨h1, h2, h3, h4⟩ := h
  obtain ⟨h2a, h2b⟩ := h2 ValidateMode.opf rfl (by decide)
  exact ⟨h1, h2a, h2b, h3, h4⟩

/-- C4 counterexample: with `EPUBCHECK_JAR_PATH` set to a location that
does not exist on a file system where nothing exists, `getJarPath`
returns that location anyway instead of throwing — the environment
override is returned without an existence check, so the claim that
`getJarPath` returns the first *existing* candidate (and throws when
none exists) is false. -/
theorem getJarPath_claim_counterexample :
    getJarPath (some "/missing/epubcheck.jar") "/install/dist" "/cwd"
        (fun _ => false)
      = Except.ok "/missing/epubcheck.jar"
    ∧ (fun _ => false) "/missing/epubcheck.jar" = false := by
  constructor
  · simp [getJarPath]
  · rfl

/-- C4 (amended): when `EPUBCHECK_JAR_PATH` is set and non-empty,
`getJarPath` returns it unconditionally, with no existence check;
otherwise it searches the three fixed relative install locations in
order and returns the first that exists, and when none exists it throws
an error whose message lists every location tried. -/
theorem getJarPath_override_then_search (env : Option String) (d w : String)
    (fs : String → Bool) :
    (∀ e, env = some e → e ≠ "" → getJarPath env d w fs = Except.ok e) ∧
    ((env = none ∨ env = some "") →
      (fs (pathJoin [d, "..", "bin", "epubcheck.jar"]) = true →
          getJarPath env d w fs
            = Except.ok (pathJoin [d, "..", "bin", "epubcheck.jar"])) ∧
      (fs (pathJoin [d, "..", "bin", "epubcheck.jar"]) = false →
          fs (pathJoin [d, "bin", "epubcheck.jar"]) = true →
          getJarPath env d w fs
            = Except.ok (pathJoin [d, "bin", "epubcheck.jar"])) ∧
      (fs (pathJoin [d, "..", "bin", "epubcheck.jar"]) = false →
          fs (pathJoin [d, "bin", "epubcheck.jar"]) = false →
          fs (pathJoin [w, "bin", "epubcheck.jar"]) = true →
          getJarPath env d w fs
            = Except.ok (pathJoin [w, "bin", "epubcheck.jar"])) ∧
      ((∀ q ∈ possiblePaths d w, fs q = false) →
          getJarPath env d w fs = Except.error
            ("EPUBCheck JAR not found. Searched in: "
              ++ String.intercalate ", " (possiblePaths d w)
              ++ ". Set EPUBCHECK_JAR_PATH environment variable or ensure bin/epubcheck.jar exists."))) := by
  constructor
  · intro e he hne
    subst he
    simp [getJarPath, hne]
  · intro henv
    have hred : getJarPath env d w fs = getJarPath.getJarPathSearch d w fs := by
      rcases henv with h | h <;> subst h <;> simp [getJarPath]
    refine ⟨?_, ?_, ?_, ?_⟩
    · intro h1
      simp [hred, getJarPath.getJarPathSearch, possiblePaths, List.find?, h1]
    · intro h1 h2
      simp [hred, getJarPath.getJarPathSearch, possiblePaths, List.find?, h1, h2]
    · intro h1 h2 h3
      simp [hred, getJarPath.getJarPathSearch, possiblePaths, List.find?, h1, h2, h3]
    · intro hall
      have h1 := hall (pathJoin [d, "..", "bin", "epubcheck.jar"]) (by simp [possiblePaths])
      have h2 := hall (pathJoin [d, "bin", "epubcheck.jar"]) (by simp [possiblePaths])
      have h3 := hall (pathJoin [w, "bin", "epubcheck.jar"]) (by simp [possiblePaths])
      simp [hred, getJarPath.getJarPathSearch, possiblePaths, List.find?, h1, h2, h3]

/-- Witness for the amended C4: with no override and an empty file
system, the search throws the message listing all three candidates. -/
theorem getJarPath_override_then_search_witness :
    getJarPath none "/install/dist" "/cwd" (fun _ => false)
      = Except.error
          ("EPUBCheck JAR not found. Searched in: "
            ++ String.intercalate ", " (possiblePaths "/install/dist" "/cwd")
            ++ ". Set EPUBCHECK_JAR_PATH environment variable or ensure bin/epubcheck.jar exists.") :=
  ((getJarPath_override_then_search none "/install/dist" "/cwd"
      (fun _ => false)).2 (Or.inl rfl)).2.2.2 (fun _ _ => rfl)

/-- C5: `isUpdateAvailable` compares dotted versions componentwise,
left to right, numerically: identical strings never report an update;
the loop answers `true` at the first component where latest exceeds
current and `false` at the first where it falls short, recursing on
equal heads; and the four concrete comparisons of the specification
hold, including the missing-trailing-component-as-zero case. -/
theorem isUpdateAvailable_numeric_comparison :
    (∀ s : String, isUpdateAvailable s (some s) = false) ∧
    (∀ (c l : Int) (cs ls : List Int), l > c →
        compareComponents (c :: cs) (l :: ls) = true) ∧
    (∀ (c l : Int) (cs ls : List Int), l < c →
        compareComponents (c :: cs) (l :: ls) = false) ∧
    (∀ (c : Int) (cs ls : List Int),
        compareComponents (c :: cs) (c :: ls) = compareComponents cs ls) ∧
    isUpdateAvailable "5.3.0" (some "5.3.0") = false ∧
    isUpdateAvailable "5.2.9" (some "5.3.0") = true ∧
    isUpdateAvailable "5.3.0" (some "5.2.9") = false ∧
    isUpdateAvailable "5.3" (some "5.3.0") = false := by
  refine ⟨?_, ?_, ?_, ?_, by decide, by decide, by decide, by decide⟩
  · intro s
    by_cases h : s = "" <;> simp [isUpdateAvailable, h, compareComponents_self]
  · intro c l cs ls h
    simp only [compareComponents]
    rw [if_pos h]
  · intro c l cs ls h
    simp only [compareComponents]
    rw [if_neg (by omega), if_pos h]
  · intro c cs ls
    simp [compareComponents]

/-- Witness for C5: the loop answers `true` as soon as a latest
component exceeds the current one. -/
theorem isUpdateAvailable_numeric_comparison_witness :
    compareComponents [(2 : Int)] [(3 : Int)] = true :=
  isUpdateAvailable_numeric_comparison.2.1 2 3 [] [] (by omega)

/-- C6: `checkForUpdatesAsync` is single-flight — a trigger arriving
while a check is in flight returns immediately with the state untouched
and no fetch; two triggers in rapid succession with no prior cache
start exactly one fetch; and the in-flight marker is cleared when the
attempt concludes, whatever the fetch produced. -/
theorem checkForUpdatesAsync_single_flight (cv cv2 : String) (now now2 : Int)
    (r : Option String) (w : Bool) (s : VersionCheckerState) :
    (s.inFlight = true → checkForUpdatesAsync cv now s = (s, false)) ∧
    ((versionCheckConclude cv now2 r w s).inFlight = false) ∧
    (s.inFlight = false → s.diskFile = none →
        (checkForUpdatesAsync cv now s).2 = true ∧
        (checkForUpdatesAsync cv2 now2 (checkForUpdatesAsync cv now s).1).2 = false) := by
  refine ⟨?_, ?_, ?_⟩
  · intro h
    simp [checkForUpdatesAsync, h]
  · simp [versionCheckConclude]
  · intro h1 h2
    simp [checkForUpdatesAsync, h1, h2, loadCache]

/-- Witness for C6: two triggers from the idle, cache-less initial
state perform exactly one fetch. -/
theorem checkForUpdatesAsync_single_flight_witness :
    (checkForUpdatesAsync "5.3.0" 0
        { cachedLatestVersion := none, inFlight := false, diskFile := none }).2 = true ∧
    (checkForUpdatesAsync "5.3.0" 1
        (checkForUpdatesAsync "5.3.0" 0
          { cachedLatestVersion := none, inFlight := false, diskFile := none }).1).2
      = false :=
  (checkForUpdatesAsync_single_flight "5.3.0" "5.3.0" 0 1 none true
      { cachedLatestVersion := none, inFlight := false, diskFile := none }).2.2 rfl rfl

/-- C7: on a trigger that is not already in flight, a loaded cache
record immediately sets the in-memory latest-known version from the
record, and a record within the 24-hour TTL suppresses the fetch. -/
theorem checkForUpdatesAsync_cache_adopt_ttl (cv : String) (now : Int)
    (s : VersionCheckerState) (c : VersionCache)
    (h1 : s.inFlight = false) (h2 : loadCache s.diskFile = some c) :
    ((checkForUpdatesAsync cv now s).1.cachedLatestVersion = c.latestVersion) ∧
    (now - c.lastCheck < CHECK_INTERVAL → (checkForUpdatesAsync cv now s).2 = false) := by
  constructor
  · simp [checkForUpdatesAsync, h1, h2]
    split <;> simp
  · intro h3
    simp [checkForUpdatesAsync, h1, h2, h3]

/-- Witness for C7 at a fresh cache record one time unit old. -/
theorem checkForUpdatesAsync_cache_adopt_ttl_witness :
    ((checkForUpdatesAsync "5.3.0" 200
        { cachedLatestVersion := none, inFlight := false,
          diskFile := some (Except.ok
            { lastCheck := 100, latestVersion := some "5.4.0",
              currentVersion := "5.3.0" }) }).1.cachedLatestVersion = some "5.4.0") ∧
    ((checkForUpdatesAsync "5.3.0" 200
        { cachedLatestVersion := none, inFlight := false,
          diskFile := some (Except.ok
            { lastCheck := 100, latestVersion := some "5.4.0",
              currentVersion := "5.3.0" }) }).2 = false) := by
  have h := checkForUpdatesAsync_cache_adopt_ttl "5.3.0" 200
    { cachedLatestVersion := none, inFlight := false,
      diskFile := some (Except.ok
        { lastCheck := 100, latestVersion := some "5.4.0",
          currentVersion := "5.3.0" }) }
    { lastCheck := 100, latestVersion := some "5.4.0", currentVersion := "5.3.0" }
    rfl rfl
  exact ⟨h.1, h.2 (by decide)⟩

/-- C8: version-cache errors never surface — a corrupted or unreadable
cache file loads as absent; every failing fetch outcome (thrown
request, non-2xx response, missing tag) yields `null`; and concluding
the background task on a failed fetch leaves the in-memory latest
version and the disk record unchanged, only clearing the in-flight
marker. -/
theorem versionCheck_failures_silent (e cv : String) (now : Int) (w : Bool)
    (s : VersionCheckerState) (o : FetchOutcome) :
    (loadCache (some (Except.error e)) = none) ∧
    (fetchLatestVersion FetchOutcome.networkError = none
      ∧ fetchLatestVersion FetchOutcome.httpError = none
      ∧ fetchLatestVersion (FetchOutcome.body none) = none) ∧
    (fetchLatestVersion o = none →
        (versionCheckConclude cv now (fetchLatestVersion o) w s).cachedLatestVersion
            = s.cachedLatestVersion
          ∧ (versionCheckConclude cv now (fetchLatestVersion o) w s).diskFile
            = s.diskFile
          ∧ (versionCheckConclude cv now (fetchLatestVersion o) w s).inFlight
            = false) := by
  refine ⟨rfl, ⟨rfl, rfl, rfl⟩, ?_⟩
  intro h
  rw [h]
  simp [versionCheckConclude]

/-- Witness for C8 at a thrown fetch against a populated state. -/
theorem versionCheck_failures_silent_witness :
    (versionCheckConclude "5.3.0" 500
        (fetchLatestVersion FetchOutcome.networkError) true
        { cachedLatestVersion := some "5.2.0", inFlight := true,
          diskFile := none }).cachedLatestVersion = some "5.2.0" ∧
    (versionCheckConclude "5.3.0" 500
        (fetchLatestVersion FetchOutcome.networkError) true
        { cachedLatestVersion := some "5.2.0", inFlight := true,
          diskFile := none }).diskFile = none ∧
    (versionCheckConclude "5.3.0" 500
        (fetchLatestVersion FetchOutcome.networkError) true
        { cachedLatestVersion := some "5.2.0", inFlight := true,
          diskFile := none }).inFlight = false :=
  (versionCheck_failures_silent "oops" "5.3.0" 500 true
      { cachedLatestVersion := some "5.2.0", inFlight := true, diskFile := none }
      FetchOutcome.networkError).2.2 rfl

/-- C9: `getEpubCheckVersion` returns a truthy memoised version
immediately without spawning; on a version-pattern miss it resolves
with the trimmed stdout, or `unknown` when that is empty, never
rejecting for the miss; and any rejection comes from jar resolution or
the spawn `error` event, never from the `close` path. -/
theorem getEpubCheckVersion_memo_fallback (cached : Option String)
    (jar : Except String String) (ev : VersionEvent) :
    (∀ v, cached = some v → v ≠ "" →
        (getEpubCheckVersion cached jar ev).result = Except.ok v
          ∧ (getEpubCheckVersion cached jar ev).spawned = false) ∧
    (∀ jp stdout, jar = Except.ok jp → (cached = none ∨ cached = some "") →
        matchVersion stdout = none →
        (getEpubCheckVersion cached jar (VersionEvent.closed stdout)).result
          = Except.ok (if stdout.trim = "" then "unknown" else stdout.trim)) ∧
    (∀ e, (getEpubCheckVersion cached jar ev).result = Except.error e →
        (∃ m, jar = Except.error m) ∨ (∃ m, ev = VersionEvent.errored m)) := by
  refine ⟨?_, ?_, ?_⟩
  · intro v hv hne
    subst hv
    simp [getEpubCheckVersion, hne]
  · intro jp stdout hjar hc hm
    subst hjar
    rcases hc with h | h <;> subst h <;>
      simp [getEpubCheckVersion, getEpubCheckVersionRun, hm]
  · intro e h
    have key : ∀ (c : Option String),
        (getEpubCheckVersionRun c jar ev).result = Except.error e →
        (∃ m, jar = Except.error m) ∨ (∃ m, ev = VersionEvent.errored m) := by
      intro c hrun
      rcases jar with em | jp
      · exact Or.inl ⟨em, rfl⟩
      · rcases ev with stdout | m
        · cases hm : matchVersion stdout <;>
            simp [getEpubCheckVersionRun, hm] at hrun
        · exact Or.inr ⟨m, rfl⟩
    rcases cached with _ | v
    · exact key none h
    · by_cases hv : v = ""
      · subst hv
        simp only [getEpubCheckVersion, if_pos rfl] at h
        exact key (some "") h
      · simp [getEpubCheckVersion, hv] at h

/-- Witness for C9: a memoised version is returned with no spawn. -/
theorem getEpubCheckVersion_memo_fallback_witness :
    (getEpubCheckVersion (some "5.3.0") (Except.ok "/opt/epubcheck.jar")
        (VersionEvent.closed "")).result = Except.ok "5.3.0" ∧
    (getEpubCheckVersion (some "5.3.0") (Except.ok "/opt/epubcheck.jar")
        (VersionEvent.closed "")).spawned = false :=
  (getEpubCheckVersion_memo_fallback (some "5.3.0") (Except.ok "/opt/epubcheck.jar")
      (VersionEvent.closed "")).1 "5.3.0" rfl (by decide)

/-- C10: when the version pattern misses, `getEpubCheckVersion` leaves
the memo unset and does not trigger the background update check, so a
subsequent call on that path spawns the subprocess again. -/
theorem getEpubCheckVersion_parse_miss_no_memo (jp jp2 : String)
    (stdout : String) (ev2 : VersionEvent)
    (hm : matchVersion stdout = none) :
    ((getEpubCheckVersion none (Except.ok jp)
        (VersionEvent.closed stdout)).newCachedVersion = none) ∧
    ((getEpubCheckVersion none (Except.ok jp)
        (VersionEvent.closed stdout)).updateCheckTriggered = false) ∧
    ((getEpubCheckVersion
        (getEpubCheckVersion none (Except.ok jp)
          (VersionEvent.closed stdout)).newCachedVersion
        (Except.ok jp2) ev2).spawned = true) := by
  refine ⟨?_, ?_, ?_⟩
  · simp [getEpubCheckVersion, getEpubCheckVersionRun, hm]
  · simp [getEpubCheckVersion, getEpubCheckVersionRun, hm]
  · cases ev2 with
    | closed st2 =>
      cases hm2 : matchVersion st2 <;>
        simp [getEpubCheckVersion, getEpubCheckVersionRun, hm, hm2]
    | errored m =>
      simp [getEpubCheckVersion, getEpubCheckVersionRun, hm]

/-- Witness for C10 at stdout that defeats the version pattern. -/
theorem getEpubCheckVersion_parse_miss_no_memo_witness :
    ((getEpubCheckVersion none (Except.ok "/opt/epubcheck.jar")
        (VersionEvent.closed "Usage: epubcheck ...")).newCachedVersion = none) ∧
    ((getEpubCheckVersion none (Except.ok "/opt/epubcheck.jar")
        (VersionEvent.closed "Usage: epubcheck ...")).updateCheckTriggered = false) ∧
    ((getEpubCheckVersion
        (getEpubCheckVersion none (Except.ok "/opt/epubcheck.jar")
          (VersionEvent.closed "Usage: epubcheck ...")).newCachedVersion
        (Except.ok "/opt/epubcheck.jar")
        (VersionEvent.closed "EPUBCheck v5.3.0")).spawned = true) :=
  getEpubCheckVersion_parse_miss_no_memo "/opt/epubcheck.jar" "/opt/epubcheck.jar"
    "Usage: epubcheck ..." (VersionEvent.closed "EPUBCheck v5.3.0") (by decide)
